import Mathlib

namespace CirclePhysics

/-- Two-dimensional vector with x and y components, mirroring the Vec2 type used by the source. -/
structure Vec2 (α : Type) where
  x : α
  y : α
deriving DecidableEq

instance {α : Type} [Add α] : Add (Vec2 α) where
  add v w := ⟨v.x + w.x, v.y + w.y⟩

instance {α : Type} [Sub α] : Sub (Vec2 α) where
  sub v w := ⟨v.x - w.x, v.y - w.y⟩

instance {α : Type} [Neg α] : Neg (Vec2 α) where
  neg v := ⟨-v.x, -v.y⟩

instance {α : Type} [Mul α] : SMul α (Vec2 α) where
  smul c v := ⟨c * v.x, c * v.y⟩

instance {α : Type} [Mul α] : HMul (Vec2 α) α (Vec2 α) where
  hMul v c := ⟨v.x * c, v.y * c⟩

/-- Model of Vec2::ZERO. -/
def Vec2.zero {α : Type} [Zero α] : Vec2 α := ⟨0, 0⟩

/-- Model of Vec2::splat. -/
def Vec2.splat {α : Type} (a : α) : Vec2 α := ⟨a, a⟩

@[simp] theorem Vec2.add_x {α : Type} [Add α] (v w : Vec2 α) : (v + w).x = v.x + w.x := rfl

@[simp] theorem Vec2.add_y {α : Type} [Add α] (v w : Vec2 α) : (v + w).y = v.y + w.y := rfl

@[simp] theorem Vec2.sub_x {α : Type} [Sub α] (v w : Vec2 α) : (v - w).x = v.x - w.x := rfl

@[simp] theorem Vec2.sub_y {α : Type} [Sub α] (v w : Vec2 α) : (v - w).y = v.y - w.y := rfl

@[simp] theorem Vec2.neg_x {α : Type} [Neg α] (v : Vec2 α) : (-v).x = -v.x := rfl

@[simp] theorem Vec2.neg_y {α : Type} [Neg α] (v : Vec2 α) : (-v).y = -v.y := rfl

@[simp] theorem Vec2.smul_x {α : Type} [Mul α] (c : α) (v : Vec2 α) : (c • v).x = c * v.x := rfl

@[simp] theorem Vec2.smul_y {α : Type} [Mul α] (c : α) (v : Vec2 α) : (c • v).y = c * v.y := rfl

@[simp] theorem Vec2.hmul_x {α : Type} [Mul α] (v : Vec2 α) (c : α) : (v * c).x = v.x * c := rfl

@[simp] theorem Vec2.hmul_y {α : Type} [Mul α] (v : Vec2 α) (c : α) : (v * c).y = v.y * c := rfl

@[simp] theorem Vec2.zero_x {α : Type} [Zero α] : (Vec2.zero : Vec2 α).x = 0 := rfl

@[simp] theorem Vec2.zero_y {α : Type} [Zero α] : (Vec2.zero : Vec2 α).y = 0 := rfl

@[simp] theorem Vec2.splat_x {α : Type} (a : α) : (Vec2.splat a).x = a := rfl

@[simp] theorem Vec2.splat_y {α : Type} (a : α) : (Vec2.splat a).y = a := rfl

theorem Vec2.ext2 {α : Type} {v w : Vec2 α} (hx : v.x = w.x) (hy : v.y = w.y) : v = w := by
  cases v; cases w; simp_all

/-- Physical state of one circle, mirroring struct Body from the source. -/
structure Body (α : Type) where
  position : Vec2 α
  velocity : Vec2 α
  force : Vec2 α
  radius : α
deriving DecidableEq

/-- Render-facing transform, mirroring struct Transform from the source. -/
structure Transform (α : Type) where
  position : Vec2 α
  size : Vec2 α
deriving DecidableEq

/-- One simulation entity, mirroring struct Entity from the source. -/
structure Entity (α : Type) where
  body : Body α
  transform : Transform α
  is_colliding : Bool
  collision_time : α
  follow_mouse : Bool
deriving DecidableEq

/-- Arena width constant GAME_WIDTH from the source. -/
def GAME_WIDTH : ℚ := 1280

/-- Arena height constant GAME_HEIGHT from the source. -/
def GAME_HEIGHT : ℚ := 940

/-- Highlight duration constant COLLISION_COLOR_TIME (0.1) from the source, real-valued
because collision resolution (modelled over the reals) writes it. -/
noncomputable def COLLISION_COLOR_TIME : ℝ := 1/10

/-- Per-entity action of sys_clean_collisions: reset the collision flag, and when the
highlight timer is positive tick it down by delta (no clamping to zero). -/
def cleanEntity (delta : ℚ) (e : Entity ℚ) : Entity ℚ :=
  { e with is_colliding := false,
           collision_time :=
             if e.collision_time > 0 then e.collision_time - delta else e.collision_time }

/-- Model of sys_clean_collisions from the source. -/
def sys_clean_collisions (entities : List (Entity ℚ)) (delta : ℚ) : List (Entity ℚ) :=
  entities.map (cleanEntity delta)

/-- Highlight test used by the draw function: an entity is drawn with the collision color
interpolation exactly when collision_time > 0. -/
def highlighted (e : Entity ℚ) : Bool := decide (e.collision_time > 0)

/-- Per-entity action of sys_apply_movement_to_body: position += (velocity + force) * delta,
then force = 0. The velocity field itself is not written. -/
def moveEntity (delta : ℚ) (e : Entity ℚ) : Entity ℚ :=
  let vel := e.body.velocity + e.body.force
  { e with body := { e.body with position := e.body.position + vel * delta,
                                 force := Vec2.zero } }

/-- Model of sys_apply_movement_to_body from the source. -/
def sys_apply_movement_to_body (entities : List (Entity ℚ)) (delta : ℚ) : List (Entity ℚ) :=
  entities.map (moveEntity delta)

/-- Per-entity action of sys_bounce_rect, with the four edge checks performed sequentially
exactly as in the source: left edge inclusive, right edge inclusive, top edge strict,
bottom edge inclusive; the right and bottom checks see the position already clamped by the
left and top checks. -/
def bounceEntity (e : Entity ℚ) : Entity ℚ :=
  let r := e.body.radius
  let px0 := e.body.position.x
  let vx0 := e.body.velocity.x
  let vx1 := if px0 - r ≤ 0 then -vx0 else vx0
  let px1 := if px0 - r ≤ 0 then r else px0
  let vx2 := if px1 + r ≥ GAME_WIDTH then -vx1 else vx1
  let px2 := if px1 + r ≥ GAME_WIDTH then GAME_WIDTH - r else px1
  let py0 := e.body.position.y
  let vy0 := e.body.velocity.y
  let vy1 := if py0 - r < 0 then -vy0 else vy0
  let py1 := if py0 - r < 0 then r else py0
  let vy2 := if py1 + r ≥ GAME_HEIGHT then -vy1 else vy1
  let py2 := if py1 + r ≥ GAME_HEIGHT then GAME_HEIGHT - r else py1
  { e with body := { e.body with position := ⟨px2, py2⟩, velocity := ⟨vx2, vy2⟩ } }

/-- Model of sys_bounce_rect from the source. -/
def sys_bounce_rect (entities : List (Entity ℚ)) : List (Entity ℚ) :=
  entities.map bounceEntity

/-- Squared euclidean length of a vector, as glam computes it. -/
def Vec2.length_sq (v : Vec2 ℝ) : ℝ := v.x * v.x + v.y * v.y

/-- Model of glam Vec2::distance_squared. -/
def Vec2.distance_squared (p q : Vec2 ℝ) : ℝ := (p - q).length_sq

/-- Model of glam Vec2::length. -/
noncomputable def Vec2.length (v : Vec2 ℝ) : ℝ := Real.sqrt v.length_sq

/-- Model of glam Vec2::normalize_or_zero: the unit vector in the direction of v, or the
zero vector when the length is zero. -/
noncomputable def Vec2.normalize_or_zero (v : Vec2 ℝ) : Vec2 ℝ :=
  if v.length = 0 then Vec2.zero else (1 / v.length) • v

/-- Exact circle-circle overlap test, mirroring the free function is_colliding. -/
def is_colliding (p1 : Vec2 ℝ) (r1 : ℝ) (p2 : Vec2 ℝ) (r2 : ℝ) : Prop :=
  let sum_radius := r1 + r2
  let square_radius := sum_radius * sum_radius
  let square_distance := Vec2.distance_squared p1 p2
  square_distance ≤ square_radius

/-- In-place update of the element at index i of a list; out-of-range indices leave the
list unchanged. -/
def modifyAt {α : Type} (l : List α) (i : Nat) (f : α → α) : List α :=
  match l, i with
  | [], _ => []
  | a :: t, 0 => f a :: t
  | a :: t, n + 1 => a :: modifyAt t n f

/-- One iteration of the inner loop of sys_resolve_collisions: p1 and r1 were read from
entities[id1] when the outer iteration for id1 started (they are not re-read after the
position writes of earlier inner iterations), e2 is re-read fresh, both entities get their
collision state set, and exactly one of them is pushed along the collision direction
according to the radius comparison. -/
noncomputable def resolve_pair (id1 : Nat) (p1 : Vec2 ℝ) (r1 : ℝ)
    (entities : List (Entity ℝ)) (id2 : Nat) : List (Entity ℝ) :=
  match entities.get? id2 with
  | none => entities
  | some e2 =>
    let p2 := e2.body.position
    let r2 := e2.body.radius
    let pos_delta := p1 - p2
    let sum_radius := r1 + r2
    let distance := pos_delta.length
    let penetration := sum_radius - distance
    let direction := (p2 - p1).normalize_or_zero
    let entities1 := modifyAt entities id1 (fun e1 =>
      let e1 := { e1 with is_colliding := true, collision_time := COLLISION_COLOR_TIME }
      if r1 < r2 then
        let push_force := penetration * (r2 / (r1 + r2))
        { e1 with body := { e1.body with position := e1.body.position - direction * push_force } }
      else e1)
    modifyAt entities1 id2 (fun e2 =>
      let e2 := { e2 with is_colliding := true, collision_time := COLLISION_COLOR_TIME }
      if r1 ≥ r2 then
        let push_force := penetration * (r1 / (r1 + r2))
        { e2 with body := { e2.body with position := e2.body.position + direction * push_force } }
      else e2)

/-- Model of sys_resolve_collisions from the source: a sequential fold over the per-entity
candidate lists produced by sys_check_collision; for each group, entities[id1] is read
once up front and each candidate id2 is then processed by resolve_pair. -/
noncomputable def sys_resolve_collisions (entities : List (Entity ℝ))
    (collisions : List (Nat × List Nat)) : List (Entity ℝ) :=
  collisions.foldl (fun ents c =>
    match ents.get? c.1 with
    | none => ents
    | some e1 => c.2.foldl (resolve_pair c.1 e1.body.position e1.body.radius) ents) entities

theorem Vec2.smul_smul_vec (c1 c2 : ℝ) (v : Vec2 ℝ) : c1 • (c2 • v) = (c1 * c2) • v := by
  apply Vec2.ext2 <;> simp <;> ring

theorem Vec2.smul_hmul (k c : ℝ) (v : Vec2 ℝ) : (k • v) * c = (k * c) • v := by
  apply Vec2.ext2 <;> simp <;> ring

theorem Vec2.neg_smul_vec (k : ℝ) (v : Vec2 ℝ) : -(k • v) = (-k) • v := by
  apply Vec2.ext2 <;> simp

theorem Vec2.neg_hmul (v : Vec2 ℝ) (c : ℝ) : (-v) * c = (-1 : ℝ) • (v * c) := by
  apply Vec2.ext2 <;> simp

theorem Vec2.length_nonneg (v : Vec2 ℝ) : 0 ≤ v.length := Real.sqrt_nonneg _

theorem Vec2.length_eq_zero {v : Vec2 ℝ} : v.length = 0 ↔ v = Vec2.zero := by
  unfold Vec2.length Vec2.length_sq
  rw [Real.sqrt_eq_zero']
  constructor
  · intro h
    have hx : v.x = 0 := by nlinarith [mul_self_nonneg v.x, mul_self_nonneg v.y]
    have hy : v.y = 0 := by nlinarith [mul_self_nonneg v.x, mul_self_nonneg v.y]
    exact Vec2.ext2 hx hy
  · intro h
    rw [h]
    simp [Vec2.zero]

theorem Vec2.length_pos {v : Vec2 ℝ} (h : v.length ≠ 0) : 0 < v.length :=
  lt_of_le_of_ne (Vec2.length_nonneg v) (Ne.symm h)

theorem Vec2.length_smul (c : ℝ) (v : Vec2 ℝ) : (c • v).length = |c| * v.length := by
  unfold Vec2.length Vec2.length_sq
  rw [show (c • v).x * (c • v).x + (c • v).y * (c • v).y = c ^ 2 * (v.x * v.x + v.y * v.y) by
    simp; ring]
  rw [Real.sqrt_mul (sq_nonneg c), Real.sqrt_sq_eq_abs]

theorem Vec2.length_axis (t : ℝ) : (Vec2.mk t 0 : Vec2 ℝ).length = |t| := by
  unfold Vec2.length Vec2.length_sq
  rw [show t * t + (0 : ℝ) * 0 = t ^ 2 by ring, Real.sqrt_sq_eq_abs]

theorem Vec2.normalize_of_ne {v : Vec2 ℝ} (h : v.length ≠ 0) :
    v.normalize_or_zero = (1 / v.length) • v := by
  unfold Vec2.normalize_or_zero
  rw [if_neg h]

theorem Vec2.normalize_of_zero {v : Vec2 ℝ} (h : v.length = 0) :
    v.normalize_or_zero = Vec2.zero := by
  unfold Vec2.normalize_or_zero
  rw [if_pos h]

theorem Vec2.length_normalize {v : Vec2 ℝ} (h : v.length ≠ 0) :
    (v.normalize_or_zero).length = 1 := by
  rw [Vec2.normalize_of_ne h, Vec2.length_smul,
    abs_of_pos (one_div_pos.mpr (Vec2.length_pos h))]
  field_simp

theorem Vec2.normalize_smul_pos {c : ℝ} (hc : 0 < c) (v : Vec2 ℝ) :
    (c • v).normalize_or_zero = v.normalize_or_zero := by
  by_cases h : v.length = 0
  · have hv : v = Vec2.zero := Vec2.length_eq_zero.mp h
    subst hv
    have hz : c • (Vec2.zero : Vec2 ℝ) = Vec2.zero := by apply Vec2.ext2 <;> simp
    rw [hz]
  · have hL : (c • v).length ≠ 0 := by
      rw [Vec2.length_smul, abs_of_pos hc]
      exact mul_ne_zero (ne_of_gt hc) h
    rw [Vec2.normalize_of_ne hL, Vec2.normalize_of_ne h, Vec2.smul_smul_vec]
    congr 1
    rw [Vec2.length_smul, abs_of_pos hc]
    field_simp

theorem Vec2.normalize_smul_neg {c : ℝ} (hc : c < 0) (v : Vec2 ℝ) :
    (c • v).normalize_or_zero = -(v.normalize_or_zero) := by
  by_cases h : v.length = 0
  · have hv : v = Vec2.zero := Vec2.length_eq_zero.mp h
    subst hv
    have hz : c • (Vec2.zero : Vec2 ℝ) = Vec2.zero := by apply Vec2.ext2 <;> simp
    rw [hz, Vec2.normalize_of_zero h]
    apply Vec2.ext2 <;> simp
  · have hL : (c • v).length ≠ 0 := by
      rw [Vec2.length_smul, abs_of_neg hc]
      exact mul_ne_zero (by linarith) h
    rw [Vec2.normalize_of_ne hL, Vec2.normalize_of_ne h, Vec2.smul_smul_vec,
      Vec2.neg_smul_vec]
    congr 1
    rw [Vec2.length_smul, abs_of_neg hc]
    have hc0 : c ≠ 0 := ne_of_lt hc
    field_simp

theorem Vec2.length_sub_comm (p q : Vec2 ℝ) : (p - q).length = (q - p).length := by
  have h : p - q = (-1 : ℝ) • (q - p) := by apply Vec2.ext2 <;> simp
  rw [h, Vec2.length_smul]
  simp

theorem Vec2.shift_b (pa pb : Vec2 ℝ) (t : ℝ) :
    (pb + t • (pb - pa)) - pa = (1 + t) • (pb - pa) := by
  apply Vec2.ext2 <;> simp <;> ring

theorem Vec2.shift_b' (pa pb : Vec2 ℝ) (t : ℝ) :
    pa - (pb + t • (pb - pa)) = (-(1 + t)) • (pb - pa) := by
  apply Vec2.ext2 <;> simp <;> ring

theorem Vec2.shift_a (pa pb : Vec2 ℝ) (t : ℝ) :
    pb - (pa - t • (pb - pa)) = (1 + t) • (pb - pa) := by
  apply Vec2.ext2 <;> simp <;> ring

theorem Vec2.shift_a' (pa pb : Vec2 ℝ) (t : ℝ) :
    (pa - t • (pb - pa)) - pb = (-(1 + t)) • (pb - pa) := by
  apply Vec2.ext2 <;> simp <;> ring

@[simp] theorem modifyAt_nil {α : Type} (i : Nat) (f : α → α) : modifyAt [] i f = [] := rfl

@[simp] theorem modifyAt_cons_zero {α : Type} (a : α) (t : List α) (f : α → α) :
    modifyAt (a :: t) 0 f = f a :: t := rfl

@[simp] theorem modifyAt_cons_succ {α : Type} (a : α) (t : List α) (n : Nat) (f : α → α) :
    modifyAt (a :: t) (n + 1) f = a :: modifyAt t n f := rfl

theorem map_modifyAt {α β : Type} (l : List α) (i : Nat) (f : α → α) (g : α → β)
    (h : ∀ x, g (f x) = g x) : (modifyAt l i f).map g = l.map g := by
  induction l generalizing i with
  | nil => rfl
  | cons a t ih =>
    cases i with
    | zero => simp [h a]
    | succ n => simp [ih n]

theorem resolve_pair_01 (p1 : Vec2 ℝ) (r1 : ℝ) (a b : Entity ℝ) :
    resolve_pair 0 p1 r1 [a, b] 1 =
      [{ a with
          is_colliding := true, collision_time := COLLISION_COLOR_TIME,
          body := { a.body with position :=
            if r1 < b.body.radius then
              a.body.position - ((b.body.position - p1).normalize_or_zero) *
                (((r1 + b.body.radius) - (p1 - b.body.position).length) *
                  (b.body.radius / (r1 + b.body.radius)))
            else a.body.position } },
       { b with
          is_colliding := true, collision_time := COLLISION_COLOR_TIME,
          body := { b.body with position :=
            if r1 ≥ b.body.radius then
              b.body.position + ((b.body.position - p1).normalize_or_zero) *
                (((r1 + b.body.radius) - (p1 - b.body.position).length) *
                  (r1 / (r1 + b.body.radius)))
            else b.body.position } }] := by
  by_cases h : r1 < b.body.radius
  · simp [resolve_pair, h, not_le.mpr h]
  · simp [resolve_pair, h, not_lt.mp h]

theorem resolve_pair_10 (p1 : Vec2 ℝ) (r1 : ℝ) (a b : Entity ℝ) :
    resolve_pair 1 p1 r1 [a, b] 0 =
      [{ a with
          is_colliding := true, collision_time := COLLISION_COLOR_TIME,
          body := { a.body with position :=
            if r1 ≥ a.body.radius then
              a.body.position + ((a.body.position - p1).normalize_or_zero) *
                (((r1 + a.body.radius) - (p1 - a.body.position).length) *
                  (r1 / (r1 + a.body.radius)))
            else a.body.position } },
       { b with
          is_colliding := true, collision_time := COLLISION_COLOR_TIME,
          body := { b.body with position :=
            if r1 < a.body.radius then
              b.body.position - ((a.body.position - p1).normalize_or_zero) *
                (((r1 + a.body.radius) - (p1 - a.body.position).length) *
                  (a.body.radius / (r1 + a.body.radius)))
            else b.body.position } }] := by
  by_cases h : r1 < a.body.radius
  · simp [resolve_pair, h, not_le.mpr h]
  · simp [resolve_pair, h, not_lt.mp h]

theorem Vec2.add_neg_mul_smul (p w : Vec2 ℝ) (k1 k2 : ℝ) :
    p + ((-k1) * k2) • w = p - (k1 * k2) • w := by
  apply Vec2.ext2 <;>
    (simp only [Vec2.add_x, Vec2.add_y, Vec2.sub_x, Vec2.sub_y, Vec2.smul_x, Vec2.smul_y]
     ring)

theorem Vec2.sub_neg_mul_smul (p w : Vec2 ℝ) (k1 k2 : ℝ) :
    p - ((-k1) * k2) • w = p + (k1 * k2) • w := by
  apply Vec2.ext2 <;>
    (simp only [Vec2.add_x, Vec2.add_y, Vec2.sub_x, Vec2.sub_y, Vec2.smul_x, Vec2.smul_y]
     ring)

theorem Vec2.sub_sub_smul (p w : Vec2 ℝ) (c1 c2 : ℝ) :
    (p - c1 • w) - c2 • w = p - (c1 + c2) • w := by
  apply Vec2.ext2 <;>
    (simp only [Vec2.add_x, Vec2.add_y, Vec2.sub_x, Vec2.sub_y, Vec2.smul_x, Vec2.smul_y]
     ring)

theorem Vec2.add_add_smul (p w : Vec2 ℝ) (c1 c2 : ℝ) :
    (p + c1 • w) + c2 • w = p + (c1 + c2) • w := by
  apply Vec2.ext2 <;>
    (simp only [Vec2.add_x, Vec2.add_y, Vec2.sub_x, Vec2.sub_y, Vec2.smul_x, Vec2.smul_y]
     ring)

theorem sys_resolve_two (a b : Entity ℝ) :
    sys_resolve_collisions [a, b] [(0, [1]), (1, [0])] =
      match (resolve_pair 0 a.body.position a.body.radius [a, b] 1).get? 1 with
      | none => resolve_pair 0 a.body.position a.body.radius [a, b] 1
      | some b1 => resolve_pair 1 b1.body.position b1.body.radius
          (resolve_pair 0 a.body.position a.body.radius [a, b] 1) 0 := rfl

theorem pair_eval_eq (a b : Entity ℝ)
    (hd : (b.body.position - a.body.position).length ≠ 0)
    (hover : (b.body.position - a.body.position).length < a.body.radius + b.body.radius)
    (hrr : a.body.radius = b.body.radius)
    (hra : 0 < a.body.radius) :
    sys_resolve_collisions [a, b] [(0, [1]), (1, [0])] =
      [{ a with
          is_colliding := true, collision_time := COLLISION_COLOR_TIME,
          body := { a.body with position := a.body.position +
            (-((b.body.radius + b.body.radius - (b.body.position - a.body.position).length) / 4 /
               (b.body.position - a.body.position).length)) •
              (b.body.position - a.body.position) } },
       { b with
          is_colliding := true, collision_time := COLLISION_COLOR_TIME,
          body := { b.body with position := b.body.position +
            ((b.body.radius + b.body.radius - (b.body.position - a.body.position).length) / 2 /
               (b.body.position - a.body.position).length) •
              (b.body.position - a.body.position) } }] := by
  have hrb : 0 < b.body.radius := hrr ▸ hra
  have hd0 : 0 < (b.body.position - a.body.position).length := Vec2.length_pos hd
  have hs : 0 < a.body.radius + b.body.radius := by linarith
  have hpen : 0 < a.body.radius + b.body.radius - (b.body.position - a.body.position).length := by
    linarith
  have h1 : resolve_pair 0 a.body.position a.body.radius [a, b] 1 =
      [{ a with is_colliding := true, collision_time := COLLISION_COLOR_TIME },
       { b with
          is_colliding := true, collision_time := COLLISION_COLOR_TIME,
          body := { b.body with position := b.body.position +
            (1 / (b.body.position - a.body.position).length *
              ((a.body.radius + b.body.radius - (b.body.position - a.body.position).length) *
                (a.body.radius / (a.body.radius + b.body.radius)))) •
              (b.body.position - a.body.position) } }] := by
    rw [resolve_pair_01, if_neg (not_lt.mpr (le_of_eq hrr.symm)), if_pos (le_of_eq hrr.symm),
      Vec2.length_sub_comm a.body.position b.body.position, Vec2.normalize_of_ne hd,
      Vec2.smul_hmul]
  have hc1 : (0:ℝ) < 1 / (b.body.position - a.body.position).length *
      ((a.body.radius + b.body.radius - (b.body.position - a.body.position).length) *
        (a.body.radius / (a.body.radius + b.body.radius))) :=
    mul_pos (one_div_pos.mpr hd0) (mul_pos hpen (div_pos hra hs))
  rw [sys_resolve_two, h1]
  dsimp only [List.get?]
  rw [resolve_pair_10]
  dsimp only
  rw [if_pos (le_of_eq hrr), if_neg (not_lt.mpr (le_of_eq hrr)),
    Vec2.shift_b a.body.position b.body.position, Vec2.shift_b' a.body.position b.body.position,
    Vec2.length_smul, abs_of_pos (by linarith : (0:ℝ) < 1 + 1 / (b.body.position - a.body.position).length *
      ((a.body.radius + b.body.radius - (b.body.position - a.body.position).length) *
        (a.body.radius / (a.body.radius + b.body.radius)))),
    Vec2.normalize_smul_neg (by linarith : -(1 + 1 / (b.body.position - a.body.position).length *
      ((a.body.radius + b.body.radius - (b.body.position - a.body.position).length) *
        (a.body.radius / (a.body.radius + b.body.radius)))) < 0),
    Vec2.normalize_of_ne hd, Vec2.neg_smul_vec, Vec2.smul_hmul]
  simp only [List.cons.injEq, and_true]
  have hbb : b.body.radius + b.body.radius ≠ 0 := by positivity
  have hrbne : b.body.radius ≠ 0 := ne_of_gt hrb
  constructor
  · congr 1
    congr 1
    congr 1
    congr 1
    rw [hrr]
    field_simp [hd, hrbne, hbb]
    ring
  · congr 1
    congr 1
    congr 1
    congr 1
    rw [hrr]
    field_simp [hd, hrbne, hbb]
    ring

theorem pair_eval_lt (a b : Entity ℝ)
    (hd : (b.body.position - a.body.position).length ≠ 0)
    (hover : (b.body.position - a.body.position).length < a.body.radius + b.body.radius)
    (h : a.body.radius < b.body.radius)
    (hra : 0 < a.body.radius) (hrb : 0 < b.body.radius) :
    sys_resolve_collisions [a, b] [(0, [1]), (1, [0])] =
      [{ a with
          is_colliding := true, collision_time := COLLISION_COLOR_TIME,
          body := { a.body with position := a.body.position -
            (((a.body.radius + b.body.radius - (b.body.position - a.body.position).length) *
                (b.body.radius / (a.body.radius + b.body.radius)) +
              (a.body.radius + b.body.radius - (b.body.position - a.body.position).length) *
                (a.body.radius / (a.body.radius + b.body.radius)) *
                (b.body.radius / (a.body.radius + b.body.radius))) /
              (b.body.position - a.body.position).length) •
            (b.body.position - a.body.position) } },
       { b with
          is_colliding := true, collision_time := COLLISION_COLOR_TIME }] := by
  have hd0 : 0 < (b.body.position - a.body.position).length := Vec2.length_pos hd
  have hs : 0 < a.body.radius + b.body.radius := by linarith
  have hpen : 0 < a.body.radius + b.body.radius - (b.body.position - a.body.position).length := by
    linarith
  have h1 : resolve_pair 0 a.body.position a.body.radius [a, b] 1 =
      [{ a with
          is_colliding := true, collision_time := COLLISION_COLOR_TIME,
          body := { a.body with position := a.body.position -
            (1 / (b.body.position - a.body.position).length *
              ((a.body.radius + b.body.radius - (b.body.position - a.body.position).length) *
                (b.body.radius / (a.body.radius + b.body.radius)))) •
              (b.body.position - a.body.position) } },
       { b with is_colliding := true, collision_time := COLLISION_COLOR_TIME }] := by
    rw [resolve_pair_01, if_pos h, if_neg (not_le.mpr h),
      Vec2.length_sub_comm a.body.position b.body.position, Vec2.normalize_of_ne hd,
      Vec2.smul_hmul]
  have hc1 : (0:ℝ) < 1 / (b.body.position - a.body.position).length *
      ((a.body.radius + b.body.radius - (b.body.position - a.body.position).length) *
        (b.body.radius / (a.body.radius + b.body.radius))) :=
    mul_pos (one_div_pos.mpr hd0) (mul_pos hpen (div_pos hrb hs))
  rw [sys_resolve_two, h1]
  dsimp only [List.get?]
  rw [resolve_pair_10]
  dsimp only
  rw [if_pos (le_of_lt h), if_neg (not_lt.mpr (le_of_lt h)),
    Vec2.shift_a a.body.position b.body.position, Vec2.shift_a' a.body.position b.body.position,
    Vec2.length_smul,
    abs_of_pos (by linarith : (0:ℝ) < 1 + 1 / (b.body.position - a.body.position).length *
      ((a.body.radius + b.body.radius - (b.body.position - a.body.position).length) *
        (b.body.radius / (a.body.radius + b.body.radius)))),
    Vec2.normalize_smul_neg (by linarith : -(1 + 1 / (b.body.position - a.body.position).length *
      ((a.body.radius + b.body.radius - (b.body.position - a.body.position).length) *
        (b.body.radius / (a.body.radius + b.body.radius)))) < 0),
    Vec2.normalize_of_ne hd, Vec2.neg_smul_vec, Vec2.smul_hmul,
    Vec2.add_neg_mul_smul, Vec2.sub_sub_smul]
  have hsne : a.body.radius + b.body.radius ≠ 0 := ne_of_gt hs
  have hsne' : b.body.radius + a.body.radius ≠ 0 := by rw [add_comm]; exact hsne
  simp only [List.cons.injEq, and_true]
  congr 1
  congr 1
  congr 1
  congr 1
  field_simp
  ring

theorem pair_eval_gt (a b : Entity ℝ)
    (hd : (b.body.position - a.body.position).length ≠ 0)
    (hover : (b.body.position - a.body.position).length < a.body.radius + b.body.radius)
    (h : b.body.radius < a.body.radius)
    (hra : 0 < a.body.radius) (hrb : 0 < b.body.radius) :
    sys_resolve_collisions [a, b] [(0, [1]), (1, [0])] =
      [{ a with
          is_colliding := true, collision_time := COLLISION_COLOR_TIME },
       { b with
          is_colliding := true, collision_time := COLLISION_COLOR_TIME,
          body := { b.body with position := b.body.position +
            (((a.body.radius + b.body.radius - (b.body.position - a.body.position).length) *
                (a.body.radius / (a.body.radius + b.body.radius)) +
              (a.body.radius + b.body.radius - (b.body.position - a.body.position).length) *
                (b.body.radius / (a.body.radius + b.body.radius)) *
                (a.body.radius / (a.body.radius + b.body.radius))) /
              (b.body.position - a.body.position).length) •
            (b.body.position - a.body.position) } }] := by
  have hd0 : 0 < (b.body.position - a.body.position).length := Vec2.length_pos hd
  have hs : 0 < a.body.radius + b.body.radius := by linarith
  have hpen : 0 < a.body.radius + b.body.radius - (b.body.position - a.body.position).length := by
    linarith
  have h1 : resolve_pair 0 a.body.position a.body.radius [a, b] 1 =
      [{ a with is_colliding := true, collision_time := COLLISION_COLOR_TIME },
       { b with
          is_colliding := true, collision_time := COLLISION_COLOR_TIME,
          body := { b.body with position := b.body.position +
            (1 / (b.body.position - a.body.position).length *
              ((a.body.radius + b.body.radius - (b.body.position - a.body.position).length) *
                (a.body.radius / (a.body.radius + b.body.radius)))) •
              (b.body.position - a.body.position) } }] := by
    rw [resolve_pair_01, if_neg (not_lt.mpr (le_of_lt h)), if_pos (le_of_lt h),
      Vec2.length_sub_comm a.body.position b.body.position, Vec2.normalize_of_ne hd,
      Vec2.smul_hmul]
  have hc1 : (0:ℝ) < 1 / (b.body.position - a.body.position).length *
      ((a.body.radius + b.body.radius - (b.body.position - a.body.position).length) *
        (a.body.radius / (a.body.radius + b.body.radius))) :=
    mul_pos (one_div_pos.mpr hd0) (mul_pos hpen (div_pos hra hs))
  rw [sys_resolve_two, h1]
  dsimp only [List.get?]
  rw [resolve_pair_10]
  dsimp only
  rw [if_neg (not_le.mpr h), if_pos h,
    Vec2.shift_b a.body.position b.body.position, Vec2.shift_b' a.body.position b.body.position,
    Vec2.length_smul,
    abs_of_pos (by linarith : (0:ℝ) < 1 + 1 / (b.body.position - a.body.position).length *
      ((a.body.radius + b.body.radius - (b.body.position - a.body.position).length) *
        (a.body.radius / (a.body.radius + b.body.radius)))),
    Vec2.normalize_smul_neg (by linarith : -(1 + 1 / (b.body.position - a.body.position).length *
      ((a.body.radius + b.body.radius - (b.body.position - a.body.position).length) *
        (a.body.radius / (a.body.radius + b.body.radius)))) < 0),
    Vec2.normalize_of_ne hd, Vec2.neg_smul_vec, Vec2.smul_hmul,
    Vec2.sub_neg_mul_smul, Vec2.add_add_smul]
  have hsne : a.body.radius + b.body.radius ≠ 0 := ne_of_gt hs
  have hsne' : b.body.radius + a.body.radius ≠ 0 := by rw [add_comm]; exact hsne
  simp only [List.cons.injEq, and_true, true_and]
  congr 1
  congr 1
  congr 1
  apply Vec2.ext2 <;>
    (simp only [Vec2.add_x, Vec2.add_y, Vec2.sub_x, Vec2.sub_y, Vec2.smul_x, Vec2.smul_y]
     field_simp [hd, hsne, hsne']
     ring)

/-- Construction of a fresh entity with no force, no collision state and a transform of
twice the radius, as init_entities and spawn_big_circle build them. -/
def mkEntityQ (p v f : Vec2 ℚ) (r : ℚ) : Entity ℚ :=
  ⟨⟨p, v, f, r⟩, ⟨p, Vec2.splat (r * 2)⟩, false, 0, false⟩

theorem bounceEntity_bounds (e : Entity ℚ) (hw : 2 * e.body.radius ≤ GAME_WIDTH)
    (hh : 2 * e.body.radius ≤ GAME_HEIGHT) :
    e.body.radius ≤ (bounceEntity e).body.position.x ∧
    (bounceEntity e).body.position.x ≤ GAME_WIDTH - e.body.radius ∧
    e.body.radius ≤ (bounceEntity e).body.position.y ∧
    (bounceEntity e).body.position.y ≤ GAME_HEIGHT - e.body.radius := by
  simp only [bounceEntity]
  split_ifs <;>
    refine ⟨by linarith, by linarith, by linarith, by linarith⟩

theorem bounce_of_bounded (e : Entity ℚ)
    (hx1 : e.body.radius ≤ e.body.position.x)
    (hx2 : e.body.position.x ≤ GAME_WIDTH - e.body.radius)
    (hy1 : e.body.radius ≤ e.body.position.y)
    (hy2 : e.body.position.y ≤ GAME_HEIGHT - e.body.radius)
    (hw : 2 * e.body.radius < GAME_WIDTH) (_hh : 2 * e.body.radius < GAME_HEIGHT) :
    (bounceEntity e).body.position = e.body.position ∧
    (e.body.position.x ≠ e.body.radius → e.body.position.x ≠ GAME_WIDTH - e.body.radius →
     e.body.position.y ≠ GAME_HEIGHT - e.body.radius → bounceEntity e = e) := by
  constructor
  · simp only [bounceEntity]
    split_ifs <;> apply Vec2.ext2 <;> simp <;> linarith
  · intro hne1 hne2 hne3
    have hc1 : ¬ e.body.position.x - e.body.radius ≤ 0 := by
      intro hc
      exact hne1 (le_antisymm (by linarith) hx1)
    have hc2 : ¬ e.body.position.x + e.body.radius ≥ GAME_WIDTH := by
      intro hc
      exact hne2 (le_antisymm hx2 (by linarith))
    have hc3 : ¬ e.body.position.y - e.body.radius < 0 := by
      intro hc
      linarith
    have hc4 : ¬ e.body.position.y + e.body.radius ≥ GAME_HEIGHT := by
      intro hc
      exact hne3 (le_antisymm hy2 (by linarith))
    simp only [bounceEntity, if_neg hc1, if_neg hc2, if_neg hc3, if_neg hc4]

theorem bounce_edge_policy (e : Entity ℚ) (hw : 2 * e.body.radius < GAME_WIDTH)
    (hh : 2 * e.body.radius < GAME_HEIGHT) :
    (e.body.position.x - e.body.radius ≤ 0 →
      (bounceEntity e).body.velocity.x = -e.body.velocity.x ∧
      (bounceEntity e).body.position.x = e.body.radius) ∧
    (¬ e.body.position.x - e.body.radius ≤ 0 → e.body.position.x + e.body.radius ≥ GAME_WIDTH →
      (bounceEntity e).body.velocity.x = -e.body.velocity.x ∧
      (bounceEntity e).body.position.x = GAME_WIDTH - e.body.radius) ∧
    (¬ e.body.position.x - e.body.radius ≤ 0 →
     ¬ e.body.position.x + e.body.radius ≥ GAME_WIDTH →
      (bounceEntity e).body.velocity.x = e.body.velocity.x ∧
      (bounceEntity e).body.position.x = e.body.position.x) ∧
    (e.body.position.y - e.body.radius < 0 →
      (bounceEntity e).body.velocity.y = -e.body.velocity.y ∧
      (bounceEntity e).body.position.y = e.body.radius) ∧
    (¬ e.body.position.y - e.body.radius < 0 → e.body.position.y + e.body.radius ≥ GAME_HEIGHT →
      (bounceEntity e).body.velocity.y = -e.body.velocity.y ∧
      (bounceEntity e).body.position.y = GAME_HEIGHT - e.body.radius) ∧
    (¬ e.body.position.y - e.body.radius < 0 →
     ¬ e.body.position.y + e.body.radius ≥ GAME_HEIGHT →
      (bounceEntity e).body.velocity.y = e.body.velocity.y ∧
      (bounceEntity e).body.position.y = e.body.position.y) := by
  refine ⟨fun h1 => ?_, fun h1 h2 => ?_, fun h1 h2 => ?_,
          fun h1 => ?_, fun h1 h2 => ?_, fun h1 h2 => ?_⟩ <;>
    (simp only [bounceEntity]
     split_ifs <;> constructor <;> first | rfl | linarith)

theorem bounceEntity_fields (e : Entity ℚ) :
    ((bounceEntity e).body.velocity.x = e.body.velocity.x ∨
      (bounceEntity e).body.velocity.x = -e.body.velocity.x) ∧
    ((bounceEntity e).body.velocity.y = e.body.velocity.y ∨
      (bounceEntity e).body.velocity.y = -e.body.velocity.y) ∧
    (bounceEntity e).body.radius = e.body.radius ∧
    (bounceEntity e).body.force = e.body.force ∧
    (bounceEntity e).is_colliding = e.is_colliding ∧
    (bounceEntity e).collision_time = e.collision_time ∧
    (bounceEntity e).follow_mouse = e.follow_mouse ∧
    (bounceEntity e).transform = e.transform := by
  simp only [bounceEntity]
  split_ifs <;> simp

theorem get?_map_system {α β : Type} (f : α → β) {l : List α} {k : Nat} {a : α}
    (h : l.get? k = some a) : (l.map f).get? k = some (f a) := by
  induction l generalizing k with
  | nil => cases h
  | cons x t ih =>
    cases k with
    | zero =>
      have hx : x = a := by injection h
      subst hx
      rfl
    | succ n => exact ih h

/-- Claim C2 (corrected): for every body and every delta, sys_apply_movement_to_body
updates position to position + (velocity + accumulated_force) * delta and clears the
force accumulator, but leaves the velocity field itself unchanged (the summed velocity is
a local value and is never written back); radius, transform and collision state are
untouched, and the update is elementwise on the array. -/
theorem claim2_integrator_contract (entities : List (Entity ℚ)) (delta : ℚ) (k : Nat)
    (e : Entity ℚ) (he : entities.get? k = some e) :
    ∃ e1, (sys_apply_movement_to_body entities delta).get? k = some e1 ∧
      e1.body.velocity = e.body.velocity ∧
      e1.body.position = e.body.position + (e.body.velocity + e.body.force) * delta ∧
      e1.body.force = Vec2.zero ∧
      e1.body.radius = e.body.radius ∧
      e1.transform = e.transform ∧
      e1.is_colliding = e.is_colliding ∧
      e1.collision_time = e.collision_time :=
  ⟨moveEntity delta e, get?_map_system (moveEntity delta) he,
    rfl, rfl, rfl, rfl, rfl, rfl, rfl⟩

/-- Integrator input used by the C2 witness and counterexample. -/
def eMove : Entity ℚ := mkEntityQ ⟨0, 0⟩ ⟨1, 2⟩ ⟨3, 4⟩ 1

/-- Witness for C2 at a concrete body: velocity survives, position moves by
(velocity + force) * delta, force is cleared. -/
theorem claim2_witness :
    ∃ e1, (sys_apply_movement_to_body [eMove] 1).get? 0 = some e1 ∧
      e1.body.velocity = eMove.body.velocity ∧
      e1.body.position =
        eMove.body.position + (eMove.body.velocity + eMove.body.force) * (1 : ℚ) ∧
      e1.body.force = Vec2.zero ∧
      e1.body.radius = eMove.body.radius ∧
      e1.transform = eMove.transform ∧
      e1.is_colliding = eMove.is_colliding ∧
      e1.collision_time = eMove.collision_time :=
  claim2_integrator_contract [eMove] (1 : ℚ) 0 eMove rfl

/-- Counterexample to C2 as stated: after integration the velocity is still (1,2), not
velocity + accumulated_force = (4,6); the claimed velocity write-back does not happen. -/
theorem claim2_counterexample :
    ((sys_apply_movement_to_body [eMove] (1 : ℚ)).getD 0 eMove).body.velocity = ⟨1, 2⟩ ∧
    (⟨1, 2⟩ : Vec2 ℚ) ≠ eMove.body.velocity + eMove.body.force := by
  refine ⟨rfl, fun hcon => ?_⟩
  have hx := congrArg Vec2.x hcon
  norm_num [eMove, mkEntityQ] at hx

/-- Claim C4 (corrected): for a body whose diameter is smaller than the arena, each
triggered edge negates that axis's velocity component and clamps the edge exactly onto
the boundary; the left, right and bottom edges are inclusive, but the top edge check uses
a strict comparison, so a body exactly touching the top boundary is not corrected. -/
theorem claim4_edge_policy (entities : List (Entity ℚ)) (k : Nat) (e : Entity ℚ)
    (he : entities.get? k = some e)
    (hw : 2 * e.body.radius < GAME_WIDTH) (hh : 2 * e.body.radius < GAME_HEIGHT) :
    ∃ e1, (sys_bounce_rect entities).get? k = some e1 ∧
      (e.body.position.x - e.body.radius ≤ 0 →
        e1.body.velocity.x = -e.body.velocity.x ∧ e1.body.position.x = e.body.radius) ∧
      (¬ e.body.position.x - e.body.radius ≤ 0 →
        e.body.position.x + e.body.radius ≥ GAME_WIDTH →
        e1.body.velocity.x = -e.body.velocity.x ∧
        e1.body.position.x = GAME_WIDTH - e.body.radius) ∧
      (¬ e.body.position.x - e.body.radius ≤ 0 →
       ¬ e.body.position.x + e.body.radius ≥ GAME_WIDTH →
        e1.body.velocity.x = e.body.velocity.x ∧ e1.body.position.x = e.body.position.x) ∧
      (e.body.position.y - e.body.radius < 0 →
        e1.body.velocity.y = -e.body.velocity.y ∧ e1.body.position.y = e.body.radius) ∧
      (¬ e.body.position.y - e.body.radius < 0 →
        e.body.position.y + e.body.radius ≥ GAME_HEIGHT →
        e1.body.velocity.y = -e.body.velocity.y ∧
        e1.body.position.y = GAME_HEIGHT - e.body.radius) ∧
      (¬ e.body.position.y - e.body.radius < 0 →
       ¬ e.body.position.y + e.body.radius ≥ GAME_HEIGHT →
        e1.body.velocity.y = e.body.velocity.y ∧ e1.body.position.y = e.body.position.y) := by
  obtain ⟨p1, p2, p3, p4, p5, p6⟩ := bounce_edge_policy e hw hh
  exact ⟨bounceEntity e, get?_map_system bounceEntity he, p1, p2, p3, p4, p5, p6⟩

/-- Body past the left edge used by the C4 witness. -/
def eW4 : Entity ℚ := mkEntityQ ⟨5, 300⟩ ⟨-50, 0⟩ ⟨0, 0⟩ 16

/-- Witness for C4: a body past the left edge has velocity.x negated and position.x
clamped to its radius. -/
theorem claim4_witness :
    2 * eW4.body.radius < GAME_WIDTH ∧
    ∃ e1, (sys_bounce_rect [eW4]).get? 0 = some e1 ∧
      e1.body.velocity.x = -eW4.body.velocity.x ∧ e1.body.position.x = eW4.body.radius := by
  refine ⟨by norm_num [eW4, mkEntityQ, GAME_WIDTH], ?_⟩
  obtain ⟨e1, hget, himp, -, -, -, -, -⟩ := claim4_edge_policy [eW4] 0 eW4 rfl
    (by norm_num [eW4, mkEntityQ, GAME_WIDTH]) (by norm_num [eW4, mkEntityQ, GAME_HEIGHT])
  exact ⟨e1, hget, himp (by norm_num [eW4, mkEntityQ])⟩

/-- Body exactly touching the top boundary used by the C4 counterexample. -/
def eTop : Entity ℚ := mkEntityQ ⟨600, 2⟩ ⟨0, -5⟩ ⟨0, 0⟩ 2

/-- Counterexample to C4 as stated: this body's top leading edge satisfies
position.y - radius ≤ 0, yet sys_bounce_rect leaves velocity.y at -5 instead of negating
it, because the top edge uses a strict comparison. -/
theorem claim4_counterexample :
    eTop.body.position.y - eTop.body.radius ≤ 0 ∧
    ((sys_bounce_rect [eTop]).getD 0 eTop).body.velocity.y = eTop.body.velocity.y ∧
    eTop.body.velocity.y ≠ -eTop.body.velocity.y := by
  norm_num [sys_bounce_rect, bounceEntity, eTop, mkEntityQ, GAME_WIDTH, GAME_HEIGHT]

/-- Claim C5 (corrected): a second run of sys_bounce_rect never changes positions (for
bodies whose diameter is smaller than the arena), and it is a full no-op on a body
unless that body lies exactly on the left, right or bottom boundary after the first run,
in which case the inclusive edge checks fire again and negate the velocity once more. -/
theorem claim5_second_run (entities : List (Entity ℚ)) (k : Nat) (e : Entity ℚ)
    (he : entities.get? k = some e)
    (hw : 2 * e.body.radius < GAME_WIDTH) (hh : 2 * e.body.radius < GAME_HEIGHT) :
    ∃ e1 e2, (sys_bounce_rect entities).get? k = some e1 ∧
      (sys_bounce_rect (sys_bounce_rect entities)).get? k = some e2 ∧
      e2.body.position = e1.body.position ∧
      (e1.body.position.x ≠ e.body.radius → e1.body.position.x ≠ GAME_WIDTH - e.body.radius →
       e1.body.position.y ≠ GAME_HEIGHT - e.body.radius → e2 = e1) := by
  obtain ⟨hb1, hb2, hb3, hb4⟩ := bounceEntity_bounds e (le_of_lt hw) (le_of_lt hh)
  have h2 := bounce_of_bounded (bounceEntity e) hb1 hb2 hb3 hb4 hw hh
  exact ⟨bounceEntity e, bounceEntity (bounceEntity e),
    get?_map_system bounceEntity he,
    get?_map_system bounceEntity (get?_map_system bounceEntity he),
    h2.1, fun hn1 hn2 hn3 => h2.2 hn1 hn2 hn3⟩

/-- Strictly interior body used by the C5 witness. -/
def eW5 : Entity ℚ := mkEntityQ ⟨100, 200⟩ ⟨3, 4⟩ ⟨0, 0⟩ 2

/-- Witness for C5 at a strictly interior body. -/
theorem claim5_witness :
    ∃ e1 e2, (sys_bounce_rect [eW5]).get? 0 = some e1 ∧
      (sys_bounce_rect (sys_bounce_rect [eW5])).get? 0 = some e2 ∧
      e2.body.position = e1.body.position ∧
      (e1.body.position.x ≠ eW5.body.radius →
       e1.body.position.x ≠ GAME_WIDTH - eW5.body.radius →
       e1.body.position.y ≠ GAME_HEIGHT - eW5.body.radius → e2 = e1) :=
  claim5_second_run [eW5] 0 eW5 rfl (by norm_num [eW5, mkEntityQ, GAME_WIDTH])
    (by norm_num [eW5, mkEntityQ, GAME_HEIGHT])

/-- Body that the first sys_bounce_rect run clamps exactly onto the left edge, used by the
C5 counterexample. -/
def eEdge : Entity ℚ := mkEntityQ ⟨0, 300⟩ ⟨-5, 0⟩ ⟨0, 0⟩ 2

/-- Counterexample to C5 as stated: on the already-contained array sys_bounce_rect [eEdge]
(whose body now sits exactly on the left edge), a second run is not a no-op - the
inclusive left check fires again and negates velocity.x once more. -/
theorem claim5_counterexample :
    sys_bounce_rect (sys_bounce_rect [eEdge]) ≠ sys_bounce_rect [eEdge] := by
  norm_num [sys_bounce_rect, bounceEntity, eEdge, mkEntityQ, GAME_WIDTH, GAME_HEIGHT]

/-- Claim C6 (corrected): after sys_bounce_rect, every body whose diameter fits the arena
(2 * radius ≤ dimension on each axis) has its position inside
[radius, dimension - radius] on both axes. -/
theorem claim6_contained_after_bounce (entities : List (Entity ℚ)) (k : Nat) (e : Entity ℚ)
    (he : entities.get? k = some e)
    (hw : 2 * e.body.radius ≤ GAME_WIDTH) (hh : 2 * e.body.radius ≤ GAME_HEIGHT) :
    ∃ e1, (sys_bounce_rect entities).get? k = some e1 ∧
      e.body.radius ≤ e1.body.position.x ∧ e1.body.position.x ≤ GAME_WIDTH - e.body.radius ∧
      e.body.radius ≤ e1.body.position.y ∧
      e1.body.position.y ≤ GAME_HEIGHT - e.body.radius := by
  obtain ⟨h1, h2, h3, h4⟩ := bounceEntity_bounds e hw hh
  exact ⟨bounceEntity e, get?_map_system bounceEntity he, h1, h2, h3, h4⟩

/-- Out-of-bounds fast body used by the C6 witness. -/
def eW6 : Entity ℚ := mkEntityQ ⟨5, 300⟩ ⟨-50, 0⟩ ⟨0, 0⟩ 16

/-- Witness for C6 at a concrete body that starts past the left edge. -/
theorem claim6_witness :
    ∃ e1, (sys_bounce_rect [eW6]).get? 0 = some e1 ∧
      eW6.body.radius ≤ e1.body.position.x ∧
      e1.body.position.x ≤ GAME_WIDTH - eW6.body.radius ∧
      eW6.body.radius ≤ e1.body.position.y ∧
      e1.body.position.y ≤ GAME_HEIGHT - eW6.body.radius :=
  claim6_contained_after_bounce [eW6] 0 eW6 rfl (by norm_num [eW6, mkEntityQ, GAME_WIDTH])
    (by norm_num [eW6, mkEntityQ, GAME_HEIGHT])

/-- Oversized body used by the C6 counterexample. -/
def eBig : Entity ℚ := mkEntityQ ⟨0, 300⟩ ⟨0, 0⟩ ⟨0, 0⟩ 700

/-- Counterexample to C6 as stated for every body: a radius-700 body ends with
position.x = 580 < radius after sys_bounce_rect, outside [radius, GAME_WIDTH - radius]
(which is empty since 2 * radius > GAME_WIDTH). -/
theorem claim6_counterexample :
    ((sys_bounce_rect [eBig]).getD 0 eBig).body.position.x < eBig.body.radius := by
  norm_num [sys_bounce_rect, bounceEntity, eBig, mkEntityQ, GAME_WIDTH, GAME_HEIGHT]

/-- Claim C8 (confirmed): sys_clean_collisions resets is_colliding to false for every body
and decrements a positive highlight timer by delta without clamping (the result may land
below zero), leaves a non-positive timer untouched (the conceptual floor), and any
resulting value ≤ 0 means the body is not drawn highlighted. -/
theorem claim8_collision_decay (entities : List (Entity ℚ)) (delta : ℚ) (k : Nat)
    (e : Entity ℚ) (he : entities.get? k = some e) :
    ∃ e1, (sys_clean_collisions entities delta).get? k = some e1 ∧
      e1.is_colliding = false ∧
      (0 < e.collision_time → e1.collision_time = e.collision_time - delta) ∧
      (e.collision_time ≤ 0 → e1.collision_time = e.collision_time) ∧
      (e1.collision_time ≤ 0 → highlighted e1 = false) := by
  refine ⟨cleanEntity delta e, get?_map_system (cleanEntity delta) he,
    rfl, ?_, ?_, ?_⟩
  · intro h
    simp [cleanEntity, h]
  · intro h
    simp [cleanEntity, not_lt.mpr h]
  · intro h
    simp only [highlighted, decide_eq_false_iff_not, not_lt]
    exact h

/-- Highlighted body with a small remaining timer used by the C8 witness. -/
def eW8 : Entity ℚ := ⟨⟨⟨0, 0⟩, ⟨0, 0⟩, ⟨0, 0⟩, 2⟩, ⟨⟨0, 0⟩, ⟨4, 4⟩⟩, true, 1/20, false⟩

/-- Witness for C8: a timer of 1/20 decremented by delta = 1/10 lands at -1/20 (below
zero, not clamped) and the body is no longer highlighted. -/
theorem claim8_witness :
    (0:ℚ) < eW8.collision_time ∧
    ∃ e1, (sys_clean_collisions [eW8] (1/10)).get? 0 = some e1 ∧
      e1.is_colliding = false ∧ e1.collision_time = eW8.collision_time - 1/10 ∧
      highlighted e1 = false := by
  refine ⟨by norm_num [eW8], ?_⟩
  obtain ⟨e1, hget, hflag, hdec, -, hhl⟩ := claim8_collision_decay [eW8] (1/10) 0 eW8 rfl
  have ht := hdec (by norm_num [eW8])
  refine ⟨e1, hget, hflag, ht, hhl ?_⟩
  rw [ht]
  norm_num [eW8]

/-- Claim C10 (confirmed): sys_bounce_rect changes each velocity component at most by
sign (each component is preserved or negated, so componentwise speed is invariant), and
leaves radius, force and the collision state untouched. -/
theorem claim10_bounce_velocity_magnitude (entities : List (Entity ℚ)) (k : Nat)
    (e : Entity ℚ) (he : entities.get? k = some e) :
    ∃ e1, (sys_bounce_rect entities).get? k = some e1 ∧
      (e1.body.velocity.x = e.body.velocity.x ∨ e1.body.velocity.x = -e.body.velocity.x) ∧
      (e1.body.velocity.y = e.body.velocity.y ∨ e1.body.velocity.y = -e.body.velocity.y) ∧
      e1.body.radius = e.body.radius ∧ e1.body.force = e.body.force ∧
      e1.is_colliding = e.is_colliding ∧ e1.collision_time = e.collision_time := by
  obtain ⟨q1, q2, q3, q4, q5, q6, q7, q8⟩ := bounceEntity_fields e
  exact ⟨bounceEntity e, get?_map_system bounceEntity he, q1, q2, q3, q4, q5, q6⟩

/-- Body bouncing off the left edge used by the C10 witness. -/
def eW10 : Entity ℚ := mkEntityQ ⟨0, 300⟩ ⟨-5, 7⟩ ⟨0, 0⟩ 2

/-- Witness for C10 at a body that bounces off the left edge. -/
theorem claim10_witness :
    ∃ e1, (sys_bounce_rect [eW10]).get? 0 = some e1 ∧
      (e1.body.velocity.x = eW10.body.velocity.x ∨
        e1.body.velocity.x = -eW10.body.velocity.x) ∧
      (e1.body.velocity.y = eW10.body.velocity.y ∨
        e1.body.velocity.y = -eW10.body.velocity.y) ∧
      e1.body.radius = eW10.body.radius ∧ e1.body.force = eW10.body.force ∧
      e1.is_colliding = eW10.is_colliding ∧ e1.collision_time = eW10.collision_time :=
  claim10_bounce_velocity_magnitude [eW10] 0 eW10 rfl

/-- Fields of an entity that collision resolution must never touch: velocity, force,
radius, the follow_mouse flag and the render transform. -/
def inertPart (e : Entity ℝ) : Vec2 ℝ × Vec2 ℝ × ℝ × Bool × Transform ℝ :=
  (e.body.velocity, e.body.force, e.body.radius, e.follow_mouse, e.transform)

theorem resolve_pair_inert (id1 : Nat) (p1 : Vec2 ℝ) (r1 : ℝ) (ents : List (Entity ℝ))
    (id2 : Nat) : (resolve_pair id1 p1 r1 ents id2).map inertPart = ents.map inertPart := by
  unfold resolve_pair
  cases hget : ents.get? id2 with
  | none => rfl
  | some e2 =>
    rw [map_modifyAt, map_modifyAt]
    · intro x
      by_cases h : r1 < e2.body.radius <;> simp [h, inertPart]
    · intro x
      by_cases h : r1 ≥ e2.body.radius <;> simp [h, inertPart]

theorem foldl_resolve_inert (ids : List Nat) (ents : List (Entity ℝ)) (id1 : Nat)
    (p1 : Vec2 ℝ) (r1 : ℝ) :
    ((ids.foldl (resolve_pair id1 p1 r1) ents).map inertPart) = ents.map inertPart := by
  induction ids generalizing ents with
  | nil => rfl
  | cons i rest ih =>
    rw [List.foldl_cons, ih, resolve_pair_inert]

/-- Claim C9 (confirmed): sys_resolve_collisions mutates only body positions and the
collision state; for every body, velocity, accumulated force, radius, the follow_mouse
flag and the render transform are unchanged by resolution, whatever the candidate lists
are. -/
theorem claim9_resolution_frame_effect (entities : List (Entity ℝ))
    (collisions : List (Nat × List Nat)) :
    (sys_resolve_collisions entities collisions).map inertPart = entities.map inertPart := by
  induction collisions generalizing entities with
  | nil => rfl
  | cons c rest ih =>
    show (sys_resolve_collisions
      (match entities.get? c.1 with
       | none => entities
       | some e1 => c.2.foldl (resolve_pair c.1 e1.body.position e1.body.radius) entities)
      rest).map inertPart = entities.map inertPart
    cases hget : entities.get? c.1 with
    | none => rw [ih]
    | some e1 => rw [ih, foldl_resolve_inert]

theorem Vec2.sub_zero_hmul (p : Vec2 ℝ) (c : ℝ) : p - (Vec2.zero : Vec2 ℝ) * c = p := by
  apply Vec2.ext2 <;> simp

theorem Vec2.add_zero_hmul (p : Vec2 ℝ) (c : ℝ) : p + (Vec2.zero : Vec2 ℝ) * c = p := by
  apply Vec2.ext2 <;> simp

theorem Vec2.length_zero : (Vec2.zero : Vec2 ℝ).length = 0 := by
  unfold Vec2.length Vec2.length_sq
  simp

theorem pair_eval_coincident (a b : Entity ℝ)
    (hpos : a.body.position = b.body.position) :
    sys_resolve_collisions [a, b] [(0, [1]), (1, [0])] =
      [{ a with is_colliding := true, collision_time := COLLISION_COLOR_TIME },
       { b with is_colliding := true, collision_time := COLLISION_COLOR_TIME }] := by
  have hzero : b.body.position - a.body.position = Vec2.zero := by
    rw [hpos]
    apply Vec2.ext2 <;> simp
  have hzero' : a.body.position - b.body.position = Vec2.zero := by
    rw [hpos]
    apply Vec2.ext2 <;> simp
  have hnorm : (Vec2.zero : Vec2 ℝ).normalize_or_zero = Vec2.zero :=
    Vec2.normalize_of_zero Vec2.length_zero
  have h1 : resolve_pair 0 a.body.position a.body.radius [a, b] 1 =
      [{ a with is_colliding := true, collision_time := COLLISION_COLOR_TIME },
       { b with is_colliding := true, collision_time := COLLISION_COLOR_TIME }] := by
    rw [resolve_pair_01, hzero, hnorm, Vec2.sub_zero_hmul, Vec2.add_zero_hmul,
      ite_self, ite_self]
  rw [sys_resolve_two, h1]
  dsimp only [List.get?]
  rw [resolve_pair_10]
  dsimp only
  rw [hzero', hnorm, Vec2.sub_zero_hmul, Vec2.add_zero_hmul, ite_self, ite_self]

/-- Claim C7 (corrected): when two bodies have coincident centers, resolution does not
divide by zero and the frame completes, but the collision direction is the zero vector
(normalize_or_zero's fallback), not an arbitrary fixed unit vector: no positional
correction is applied to either body, while both are still flagged as colliding. -/
theorem claim7_coincident_centers (a b : Entity ℝ)
    (hpos : a.body.position = b.body.position) :
    (b.body.position - a.body.position).normalize_or_zero = Vec2.zero ∧
    ∃ a2 b2, sys_resolve_collisions [a, b] [(0, [1]), (1, [0])] = [a2, b2] ∧
      a2.body.position = a.body.position ∧ b2.body.position = b.body.position ∧
      a2.is_colliding = true ∧ b2.is_colliding = true ∧
      a2.collision_time = COLLISION_COLOR_TIME ∧
      b2.collision_time = COLLISION_COLOR_TIME := by
  have hzero : b.body.position - a.body.position = Vec2.zero := by
    rw [hpos]
    apply Vec2.ext2 <;> simp
  refine ⟨by rw [hzero]; exact Vec2.normalize_of_zero Vec2.length_zero,
    { a with is_colliding := true, collision_time := COLLISION_COLOR_TIME },
    { b with is_colliding := true, collision_time := COLLISION_COLOR_TIME },
    pair_eval_coincident a b hpos, rfl, rfl, rfl, rfl, rfl, rfl⟩

/-- Construction of a fresh real-valued entity with no force and no collision state, as
init_entities and spawn_big_circle build them. -/
noncomputable def mkEntity (p v : Vec2 ℝ) (r : ℝ) : Entity ℝ :=
  ⟨⟨p, v, Vec2.zero, r⟩, ⟨p, Vec2.splat (r * 2)⟩, false, 0, false⟩

/-- Coincident pair used by the C7 witness. -/
noncomputable def eC7a : Entity ℝ := mkEntity ⟨100, 100⟩ ⟨0, 0⟩ 5

/-- Second body of the coincident pair used by the C7 witness. -/
noncomputable def eC7b : Entity ℝ := mkEntity ⟨100, 100⟩ ⟨3, 4⟩ 5

/-- Witness for C7 at a concrete coincident pair. -/
theorem claim7_witness :
    (eC7b.body.position - eC7a.body.position).normalize_or_zero = Vec2.zero ∧
    ∃ a2 b2, sys_resolve_collisions [eC7a, eC7b] [(0, [1]), (1, [0])] = [a2, b2] ∧
      a2.body.position = eC7a.body.position ∧ b2.body.position = eC7b.body.position ∧
      a2.is_colliding = true ∧ b2.is_colliding = true ∧
      a2.collision_time = COLLISION_COLOR_TIME ∧
      b2.collision_time = COLLISION_COLOR_TIME :=
  claim7_coincident_centers eC7a eC7b rfl

/-- Coincident pair used by the C7 counterexample. -/
noncomputable def eC7c : Entity ℝ := mkEntity ⟨50, 60⟩ ⟨1, 0⟩ 4

/-- Second body of the coincident pair used by the C7 counterexample. -/
noncomputable def eC7d : Entity ℝ := mkEntity ⟨50, 60⟩ ⟨0, 2⟩ 4

/-- Counterexample to C7 as stated: the two bodies overlap (distance zero), yet the
collision direction is the zero vector, whose length is 0, not 1 - it is not treated as
an arbitrary fixed unit vector, and accordingly neither body is moved at all. -/
theorem claim7_counterexample :
    is_colliding eC7c.body.position eC7c.body.radius eC7d.body.position eC7d.body.radius ∧
    (eC7d.body.position - eC7c.body.position).normalize_or_zero = Vec2.zero ∧
    ((eC7d.body.position - eC7c.body.position).normalize_or_zero).length ≠ 1 ∧
    ∃ a2 b2, sys_resolve_collisions [eC7c, eC7d] [(0, [1]), (1, [0])] = [a2, b2] ∧
      a2.body.position = eC7c.body.position ∧ b2.body.position = eC7d.body.position := by
  have hzero : eC7d.body.position - eC7c.body.position = Vec2.zero := by
    apply Vec2.ext2 <;> simp [eC7c, eC7d, mkEntity]
  have hnorm : (eC7d.body.position - eC7c.body.position).normalize_or_zero = Vec2.zero := by
    rw [hzero]
    exact Vec2.normalize_of_zero Vec2.length_zero
  refine ⟨?_, hnorm, ?_, ?_⟩
  · unfold is_colliding Vec2.distance_squared
    rw [show eC7c.body.position - eC7d.body.position = Vec2.zero from by
      apply Vec2.ext2 <;> simp [eC7c, eC7d, mkEntity]]
    simp [Vec2.length_sq, eC7c, eC7d, mkEntity]
  · rw [hnorm, Vec2.length_zero]
    norm_num
  · exact ⟨{ eC7c with is_colliding := true, collision_time := COLLISION_COLOR_TIME },
      { eC7d with is_colliding := true, collision_time := COLLISION_COLOR_TIME },
      pair_eval_coincident eC7c eC7d (by apply Vec2.ext2 <;> simp [eC7c, eC7d, mkEntity]),
      rfl, rfl⟩

theorem is_colliding_axis_mk (u1 u2 yy r : ℝ) (hlt : u2 - u1 < r + r)
    (hgt : -(r + r) < u2 - u1) : is_colliding ⟨u1, yy⟩ r ⟨u2, yy⟩ r := by
  unfold is_colliding Vec2.distance_squared Vec2.length_sq
  simp
  nlinarith [sq_nonneg (u2 - u1), sq_nonneg (r + r + (u2 - u1)), sq_nonneg (r + r - (u2 - u1))]

theorem head_on_pair_spec (x1 x2 y r s : ℝ) (hx : x1 < x2)
    (hover : x2 - x1 < r + r) (hr : 0 < r) (hs : s ≠ 0) :
    ((sys_resolve_collisions [mkEntity ⟨x1, y⟩ ⟨s, 0⟩ r, mkEntity ⟨x2, y⟩ ⟨-s, 0⟩ r]
        [(0, [1]), (1, [0])]).getD 0 (mkEntity ⟨x1, y⟩ ⟨s, 0⟩ r)).body.velocity = ⟨s, 0⟩ ∧
    ((sys_resolve_collisions [mkEntity ⟨x1, y⟩ ⟨s, 0⟩ r, mkEntity ⟨x2, y⟩ ⟨-s, 0⟩ r]
        [(0, [1]), (1, [0])]).getD 1 (mkEntity ⟨x2, y⟩ ⟨-s, 0⟩ r)).body.velocity = ⟨-s, 0⟩ ∧
    ((sys_resolve_collisions [mkEntity ⟨x1, y⟩ ⟨s, 0⟩ r, mkEntity ⟨x2, y⟩ ⟨-s, 0⟩ r]
        [(0, [1]), (1, [0])]).getD 0 (mkEntity ⟨x1, y⟩ ⟨s, 0⟩ r)).body.velocity ≠
      -(⟨s, 0⟩ : Vec2 ℝ) ∧
    ((sys_resolve_collisions [mkEntity ⟨x1, y⟩ ⟨s, 0⟩ r, mkEntity ⟨x2, y⟩ ⟨-s, 0⟩ r]
        [(0, [1]), (1, [0])]).getD 0 (mkEntity ⟨x1, y⟩ ⟨s, 0⟩ r)).body.position =
      ⟨x1 - (r + r - (x2 - x1)) / 4, y⟩ ∧
    ((sys_resolve_collisions [mkEntity ⟨x1, y⟩ ⟨s, 0⟩ r, mkEntity ⟨x2, y⟩ ⟨-s, 0⟩ r]
        [(0, [1]), (1, [0])]).getD 1 (mkEntity ⟨x2, y⟩ ⟨-s, 0⟩ r)).body.position =
      ⟨x2 + (r + r - (x2 - x1)) / 2, y⟩ ∧
    is_colliding (⟨x1 - (r + r - (x2 - x1)) / 4, y⟩ : Vec2 ℝ) r
      (⟨x2 + (r + r - (x2 - x1)) / 2, y⟩ : Vec2 ℝ) r := by
  have hw : (mkEntity ⟨x2, y⟩ ⟨-s, 0⟩ r).body.position -
      (mkEntity ⟨x1, y⟩ ⟨s, 0⟩ r).body.position = ⟨x2 - x1, 0⟩ := by
    apply Vec2.ext2 <;> simp [mkEntity]
  have hlen : (⟨x2 - x1, 0⟩ : Vec2 ℝ).length = x2 - x1 := by
    rw [Vec2.length_axis]
    exact abs_of_pos (by linarith)
  have hd : ((mkEntity ⟨x2, y⟩ ⟨-s, 0⟩ r).body.position -
      (mkEntity ⟨x1, y⟩ ⟨s, 0⟩ r).body.position).length ≠ 0 := by
    rw [hw, hlen]
    exact ne_of_gt (by linarith)
  have hover' : ((mkEntity ⟨x2, y⟩ ⟨-s, 0⟩ r).body.position -
      (mkEntity ⟨x1, y⟩ ⟨s, 0⟩ r).body.position).length <
      (mkEntity ⟨x1, y⟩ ⟨s, 0⟩ r).body.radius +
      (mkEntity ⟨x2, y⟩ ⟨-s, 0⟩ r).body.radius := by
    rw [hw, hlen]
    exact hover
  have heval := pair_eval_eq (mkEntity ⟨x1, y⟩ ⟨s, 0⟩ r) (mkEntity ⟨x2, y⟩ ⟨-s, 0⟩ r)
    hd hover' rfl hr
  rw [heval]
  simp only [List.getD_cons_zero, List.getD_cons_succ]
  rw [hw, hlen]
  have hne : x2 - x1 ≠ 0 := ne_of_gt (by linarith)
  refine ⟨rfl, rfl, ?_, ?_, ?_, ?_⟩
  · intro hcon
    have hxc := congrArg Vec2.x hcon
    simp [mkEntity] at hxc
    exact hs (by linarith)
  · apply Vec2.ext2
    · simp [mkEntity]
      field_simp
      ring
    · simp [mkEntity]
  · apply Vec2.ext2
    · simp [mkEntity]
      field_simp
      ring
    · simp [mkEntity]
  · exact is_colliding_axis_mk _ _ _ _ (by linarith) (by linarith)

/-- Claim C1 (corrected): in a symmetric equal-radius head-on collision visited from both
candidate lists, sys_resolve_collisions leaves both velocities unchanged (they are not
negated - no impulse is ever applied), performs positional correction only (the pair's
penetration shrinks to a quarter: the right body moves by half the penetration, then the
left body by a further quarter), and the pair still overlaps after resolution (there is
residual overlap on the next frame). -/
theorem claim1_head_on_resolution (x1 x2 y r s : ℝ) (hx : x1 < x2)
    (hover : x2 - x1 < r + r) (hr : 0 < r) (hs : s ≠ 0) :
    ((sys_resolve_collisions [mkEntity ⟨x1, y⟩ ⟨s, 0⟩ r, mkEntity ⟨x2, y⟩ ⟨-s, 0⟩ r]
        [(0, [1]), (1, [0])]).getD 0 (mkEntity ⟨x1, y⟩ ⟨s, 0⟩ r)).body.velocity = ⟨s, 0⟩ ∧
    ((sys_resolve_collisions [mkEntity ⟨x1, y⟩ ⟨s, 0⟩ r, mkEntity ⟨x2, y⟩ ⟨-s, 0⟩ r]
        [(0, [1]), (1, [0])]).getD 1 (mkEntity ⟨x2, y⟩ ⟨-s, 0⟩ r)).body.velocity = ⟨-s, 0⟩ ∧
    ((sys_resolve_collisions [mkEntity ⟨x1, y⟩ ⟨s, 0⟩ r, mkEntity ⟨x2, y⟩ ⟨-s, 0⟩ r]
        [(0, [1]), (1, [0])]).getD 0 (mkEntity ⟨x1, y⟩ ⟨s, 0⟩ r)).body.velocity ≠
      -(⟨s, 0⟩ : Vec2 ℝ) ∧
    ((sys_resolve_collisions [mkEntity ⟨x1, y⟩ ⟨s, 0⟩ r, mkEntity ⟨x2, y⟩ ⟨-s, 0⟩ r]
        [(0, [1]), (1, [0])]).getD 0 (mkEntity ⟨x1, y⟩ ⟨s, 0⟩ r)).body.position =
      ⟨x1 - (r + r - (x2 - x1)) / 4, y⟩ ∧
    ((sys_resolve_collisions [mkEntity ⟨x1, y⟩ ⟨s, 0⟩ r, mkEntity ⟨x2, y⟩ ⟨-s, 0⟩ r]
        [(0, [1]), (1, [0])]).getD 1 (mkEntity ⟨x2, y⟩ ⟨-s, 0⟩ r)).body.position =
      ⟨x2 + (r + r - (x2 - x1)) / 2, y⟩ ∧
    is_colliding (⟨x1 - (r + r - (x2 - x1)) / 4, y⟩ : Vec2 ℝ) r
      (⟨x2 + (r + r - (x2 - x1)) / 2, y⟩ : Vec2 ℝ) r :=
  head_on_pair_spec x1 x2 y r s hx hover hr hs

/-- Witness for C1 at concrete bodies: radius 10, centers 16 apart (penetration 4),
speeds plus and minus 5: velocities survive, final centers are 99 and 118, still
overlapping. -/
theorem claim1_witness :
    ((sys_resolve_collisions
        [mkEntity ⟨100, 100⟩ ⟨5, 0⟩ 10, mkEntity ⟨116, 100⟩ ⟨-5, 0⟩ 10]
        [(0, [1]), (1, [0])]).getD 0
          (mkEntity ⟨100, 100⟩ ⟨5, 0⟩ 10)).body.velocity = ⟨5, 0⟩ ∧
    ((sys_resolve_collisions
        [mkEntity ⟨100, 100⟩ ⟨5, 0⟩ 10, mkEntity ⟨116, 100⟩ ⟨-5, 0⟩ 10]
        [(0, [1]), (1, [0])]).getD 1
          (mkEntity ⟨116, 100⟩ ⟨-5, 0⟩ 10)).body.velocity = ⟨-5, 0⟩ ∧
    ((sys_resolve_collisions
        [mkEntity ⟨100, 100⟩ ⟨5, 0⟩ 10, mkEntity ⟨116, 100⟩ ⟨-5, 0⟩ 10]
        [(0, [1]), (1, [0])]).getD 0
          (mkEntity ⟨100, 100⟩ ⟨5, 0⟩ 10)).body.position = ⟨99, 100⟩ ∧
    ((sys_resolve_collisions
        [mkEntity ⟨100, 100⟩ ⟨5, 0⟩ 10, mkEntity ⟨116, 100⟩ ⟨-5, 0⟩ 10]
        [(0, [1]), (1, [0])]).getD 1
          (mkEntity ⟨116, 100⟩ ⟨-5, 0⟩ 10)).body.position = ⟨118, 100⟩ := by
  obtain ⟨h1, h2, h3, h4, h5, h6⟩ := claim1_head_on_resolution 100 116 100 10 5
    (by norm_num) (by norm_num) (by norm_num) (by norm_num)
  refine ⟨h1, h2, ?_, ?_⟩
  · rw [h4]
    norm_num
  · rw [h5]
    norm_num

/-- Counterexample to C1 as stated: for the same concrete symmetric head-on pair, the
post-resolution velocities equal the pre-resolution velocities - velocity (5, 0) is not
negated to (-5, 0) - and the two bodies still overlap (centers 99 and 118, distance 19,
sum of radii 20), so the pair has not separated for the next frame. -/
theorem claim1_counterexample :
    ((sys_resolve_collisions
        [mkEntity ⟨200, 50⟩ ⟨5, 0⟩ 10, mkEntity ⟨216, 50⟩ ⟨-5, 0⟩ 10]
        [(0, [1]), (1, [0])]).getD 0
          (mkEntity ⟨200, 50⟩ ⟨5, 0⟩ 10)).body.velocity = ⟨5, 0⟩ ∧
    (⟨5, 0⟩ : Vec2 ℝ) ≠ -(⟨5, 0⟩ : Vec2 ℝ) ∧
    is_colliding
      ((sys_resolve_collisions
        [mkEntity ⟨200, 50⟩ ⟨5, 0⟩ 10, mkEntity ⟨216, 50⟩ ⟨-5, 0⟩ 10]
        [(0, [1]), (1, [0])]).getD 0
          (mkEntity ⟨200, 50⟩ ⟨5, 0⟩ 10)).body.position 10
      ((sys_resolve_collisions
        [mkEntity ⟨200, 50⟩ ⟨5, 0⟩ 10, mkEntity ⟨216, 50⟩ ⟨-5, 0⟩ 10]
        [(0, [1]), (1, [0])]).getD 1
          (mkEntity ⟨216, 50⟩ ⟨-5, 0⟩ 10)).body.position 10 := by
  obtain ⟨h1, h2, h3, h4, h5, h6⟩ := head_on_pair_spec 200 216 50 10 5
    (by norm_num) (by norm_num) (by norm_num) (by norm_num)
  refine ⟨h1, ?_, ?_⟩
  · intro hcon
    have hxc := congrArg Vec2.x hcon
    simp at hxc
    norm_num at hxc
  · rw [h4, h5]
    exact h6

theorem Vec2.sub_self_smul (p w : Vec2 ℝ) (c : ℝ) : (p - c • w) - p = (-c) • w := by
  apply Vec2.ext2 <;>
    (simp only [Vec2.add_x, Vec2.add_y, Vec2.sub_x, Vec2.sub_y, Vec2.smul_x, Vec2.smul_y,
      Vec2.neg_x, Vec2.neg_y]
     ring)

theorem Vec2.add_self_smul (p w : Vec2 ℝ) (c : ℝ) : (p + c • w) - p = c • w := by
  apply Vec2.ext2 <;>
    (simp only [Vec2.add_x, Vec2.add_y, Vec2.sub_x, Vec2.sub_y, Vec2.smul_x, Vec2.smul_y]
     ring)

theorem Vec2.shift_both (pa pb : Vec2 ℝ) (ca cb : ℝ) :
    (pb + cb • (pb - pa)) - (pa + ca • (pb - pa)) = (1 + cb - ca) • (pb - pa) := by
  apply Vec2.ext2 <;>
    (simp only [Vec2.add_x, Vec2.add_y, Vec2.sub_x, Vec2.sub_y, Vec2.smul_x, Vec2.smul_y]
     ring)

theorem resolve_pair_01_lt (a b : Entity ℝ)
    (hd : (b.body.position - a.body.position).length ≠ 0)
    (h : a.body.radius < b.body.radius) :
    resolve_pair 0 a.body.position a.body.radius [a, b] 1 =
      [{ a with
          is_colliding := true, collision_time := COLLISION_COLOR_TIME,
          body := { a.body with position := a.body.position -
            (1 / (b.body.position - a.body.position).length *
              ((a.body.radius + b.body.radius - (b.body.position - a.body.position).length) *
                (b.body.radius / (a.body.radius + b.body.radius)))) •
              (b.body.position - a.body.position) } },
       { b with is_colliding := true, collision_time := COLLISION_COLOR_TIME }] := by
  rw [resolve_pair_01, if_pos h, if_neg (not_le.mpr h),
    Vec2.length_sub_comm a.body.position b.body.position, Vec2.normalize_of_ne hd,
    Vec2.smul_hmul]

theorem resolve_pair_01_ge (a b : Entity ℝ)
    (hd : (b.body.position - a.body.position).length ≠ 0)
    (h : b.body.radius ≤ a.body.radius) :
    resolve_pair 0 a.body.position a.body.radius [a, b] 1 =
      [{ a with is_colliding := true, collision_time := COLLISION_COLOR_TIME },
       { b with
          is_colliding := true, collision_time := COLLISION_COLOR_TIME,
          body := { b.body with position := b.body.position +
            (1 / (b.body.position - a.body.position).length *
              ((a.body.radius + b.body.radius - (b.body.position - a.body.position).length) *
                (a.body.radius / (a.body.radius + b.body.radius)))) •
              (b.body.position - a.body.position) } }] := by
  rw [resolve_pair_01, if_neg (not_lt.mpr h), if_pos h,
    Vec2.length_sub_comm a.body.position b.body.position, Vec2.normalize_of_ne hd,
    Vec2.smul_hmul]

set_option maxHeartbeats 1600000 in
/-- Claim C3 (confirmed): when resolving an overlapping pair, positional correction is
split by relative size - in each visit only the body whose radius is less than or equal
to the other's is moved, it moves by penetration times the larger radius over the radius
sum (at least half the penetration), and the larger body is not moved in that visit - and
applying the correction from both visit directions never double-counts the total
separation: the final center distance grows monotonically but stays strictly below the
sum of radii. -/
theorem claim3_size_split_double_visit (a b : Entity ℝ)
    (hd : (b.body.position - a.body.position).length ≠ 0)
    (hover : (b.body.position - a.body.position).length < a.body.radius + b.body.radius)
    (hra : 0 < a.body.radius) (hrb : 0 < b.body.radius) :
    (∃ a1 b1, resolve_pair 0 a.body.position a.body.radius [a, b] 1 = [a1, b1] ∧
      (a.body.radius < b.body.radius →
        (a1.body.position - a.body.position).length =
          (a.body.radius + b.body.radius - (b.body.position - a.body.position).length) * (b.body.radius / (a.body.radius + b.body.radius)) ∧
        b1.body.position = b.body.position ∧
        (a.body.radius + b.body.radius - (b.body.position - a.body.position).length) * (b.body.radius / (a.body.radius + b.body.radius)) ≥ (a.body.radius + b.body.radius - (b.body.position - a.body.position).length) / 2) ∧
      (b.body.radius ≤ a.body.radius →
        (b1.body.position - b.body.position).length =
          (a.body.radius + b.body.radius - (b.body.position - a.body.position).length) * (a.body.radius / (a.body.radius + b.body.radius)) ∧
        a1.body.position = a.body.position ∧
        (a.body.radius + b.body.radius - (b.body.position - a.body.position).length) * (a.body.radius / (a.body.radius + b.body.radius)) ≥ (a.body.radius + b.body.radius - (b.body.position - a.body.position).length) / 2)) ∧
    (∃ a2 b2, sys_resolve_collisions [a, b] [(0, [1]), (1, [0])] = [a2, b2] ∧
      (b.body.position - a.body.position).length ≤ (b2.body.position - a2.body.position).length ∧
      (b2.body.position - a2.body.position).length < a.body.radius + b.body.radius) := by
  have hd0 : 0 < (b.body.position - a.body.position).length := Vec2.length_pos hd
  have hs0 : (0:ℝ) < a.body.radius + b.body.radius := by linarith
  have hpen : (0:ℝ) < a.body.radius + b.body.radius - (b.body.position - a.body.position).length := by linarith
  constructor
  · rcases lt_or_le a.body.radius b.body.radius with hcase | hcase
    · have hc1 : (0:ℝ) ≤ 1 / (b.body.position - a.body.position).length *
          ((a.body.radius + b.body.radius - (b.body.position - a.body.position).length) * (b.body.radius / (a.body.radius + b.body.radius))) :=
        mul_nonneg (one_div_nonneg.mpr hd0.le)
          (mul_nonneg hpen.le (div_nonneg hrb.le hs0.le))
      refine ⟨_, _, resolve_pair_01_lt a b hd hcase, fun _ => ⟨?_, rfl, ?_⟩,
        fun h => absurd h (not_le.mpr hcase)⟩
      · dsimp only
        rw [Vec2.sub_self_smul, Vec2.length_smul, abs_neg, abs_of_nonneg hc1]
        field_simp
        ring
      · rw [ge_iff_le, ← mul_div_assoc, div_le_div_iff₀ two_pos hs0]
        nlinarith [mul_nonneg hpen.le (sub_nonneg.mpr (le_of_lt hcase))]
    · have hc1 : (0:ℝ) ≤ 1 / (b.body.position - a.body.position).length *
          ((a.body.radius + b.body.radius - (b.body.position - a.body.position).length) * (a.body.radius / (a.body.radius + b.body.radius))) :=
        mul_nonneg (one_div_nonneg.mpr hd0.le)
          (mul_nonneg hpen.le (div_nonneg hra.le hs0.le))
      refine ⟨_, _, resolve_pair_01_ge a b hd hcase,
        fun h => absurd h (not_lt.mpr hcase), fun _ => ⟨?_, rfl, ?_⟩⟩
      · dsimp only
        rw [Vec2.add_self_smul, Vec2.length_smul, abs_of_nonneg hc1]
        field_simp
        ring
      · rw [ge_iff_le, ← mul_div_assoc, div_le_div_iff₀ two_pos hs0]
        nlinarith [mul_nonneg hpen.le (sub_nonneg.mpr hcase)]
  · rcases lt_trichotomy a.body.radius b.body.radius with hcase | hcase | hcase
    · have hS : (0:ℝ) ≤
          ((a.body.radius + b.body.radius - (b.body.position - a.body.position).length) *
          (b.body.radius / (a.body.radius + b.body.radius)) +
        (a.body.radius + b.body.radius - (b.body.position - a.body.position).length) *
          (a.body.radius / (a.body.radius + b.body.radius)) *
          (b.body.radius / (a.body.radius + b.body.radius))) /
        (b.body.position - a.body.position).length :=
        div_nonneg (add_nonneg (mul_nonneg hpen.le (div_nonneg hrb.le hs0.le))
          (mul_nonneg (mul_nonneg hpen.le (div_nonneg hra.le hs0.le))
            (div_nonneg hrb.le hs0.le))) hd0.le
      have hpos1 : (0:ℝ) < 1 +
          ((a.body.radius + b.body.radius - (b.body.position - a.body.position).length) *
          (b.body.radius / (a.body.radius + b.body.radius)) +
        (a.body.radius + b.body.radius - (b.body.position - a.body.position).length) *
          (a.body.radius / (a.body.radius + b.body.radius)) *
          (b.body.radius / (a.body.radius + b.body.radius))) /
        (b.body.position - a.body.position).length := by linarith
      have hSL :
          (((a.body.radius + b.body.radius - (b.body.position - a.body.position).length) *
          (b.body.radius / (a.body.radius + b.body.radius)) +
        (a.body.radius + b.body.radius - (b.body.position - a.body.position).length) *
          (a.body.radius / (a.body.radius + b.body.radius)) *
          (b.body.radius / (a.body.radius + b.body.radius))) /
        (b.body.position - a.body.position).length) * (b.body.position - a.body.position).length =
          (a.body.radius + b.body.radius - (b.body.position - a.body.position).length) * (b.body.radius / (a.body.radius + b.body.radius)) +
            (a.body.radius + b.body.radius - (b.body.position - a.body.position).length) * (a.body.radius / (a.body.radius + b.body.radius)) * (b.body.radius / (a.body.radius + b.body.radius)) := by
        field_simp
        ring
      have hA1 : (a.body.radius + b.body.radius - (b.body.position - a.body.position).length) * (b.body.radius / (a.body.radius + b.body.radius)) +
            (a.body.radius + b.body.radius - (b.body.position - a.body.position).length) * (a.body.radius / (a.body.radius + b.body.radius)) * (b.body.radius / (a.body.radius + b.body.radius)) =
          (a.body.radius + b.body.radius - (b.body.position - a.body.position).length) * ((b.body.radius * (a.body.radius + b.body.radius) + a.body.radius * b.body.radius) / ((a.body.radius + b.body.radius) * (a.body.radius + b.body.radius))) := by
        field_simp
        ring
      have hfrac : (b.body.radius * (a.body.radius + b.body.radius) + a.body.radius * b.body.radius) / ((a.body.radius + b.body.radius) * (a.body.radius + b.body.radius)) < 1 := by
        rw [div_lt_one (mul_pos hs0 hs0)]
        nlinarith [mul_pos hra hra]
      have hA : (a.body.radius + b.body.radius - (b.body.position - a.body.position).length) * (b.body.radius / (a.body.radius + b.body.radius)) +
            (a.body.radius + b.body.radius - (b.body.position - a.body.position).length) * (a.body.radius / (a.body.radius + b.body.radius)) * (b.body.radius / (a.body.radius + b.body.radius)) < (a.body.radius + b.body.radius - (b.body.position - a.body.position).length) := by
        rw [hA1]
        have hmul := mul_lt_mul_of_pos_left hfrac hpen
        rw [mul_one] at hmul
        exact hmul
      have hexpand : (1 +
          ((a.body.radius + b.body.radius - (b.body.position - a.body.position).length) *
          (b.body.radius / (a.body.radius + b.body.radius)) +
        (a.body.radius + b.body.radius - (b.body.position - a.body.position).length) *
          (a.body.radius / (a.body.radius + b.body.radius)) *
          (b.body.radius / (a.body.radius + b.body.radius))) /
        (b.body.position - a.body.position).length) * (b.body.position - a.body.position).length =
          (b.body.position - a.body.position).length +
          (((a.body.radius + b.body.radius - (b.body.position - a.body.position).length) *
          (b.body.radius / (a.body.radius + b.body.radius)) +
        (a.body.radius + b.body.radius - (b.body.position - a.body.position).length) *
          (a.body.radius / (a.body.radius + b.body.radius)) *
          (b.body.radius / (a.body.radius + b.body.radius))) /
        (b.body.position - a.body.position).length) * (b.body.position - a.body.position).length := by ring
      refine ⟨_, _, pair_eval_lt a b hd hover hcase hra hrb, ?_, ?_⟩
      · dsimp only
        rw [Vec2.shift_a a.body.position b.body.position, Vec2.length_smul,
          abs_of_pos hpos1, hexpand, hSL]
        nlinarith [hA, hpen]
      · dsimp only
        rw [Vec2.shift_a a.body.position b.body.position, Vec2.length_smul,
          abs_of_pos hpos1, hexpand, hSL]
        linarith [hA]
    · have hpen2 : (0:ℝ) < b.body.radius + b.body.radius - (b.body.position - a.body.position).length := by linarith
      have hca : (0:ℝ) ≤ (b.body.radius + b.body.radius - (b.body.position - a.body.position).length) / 4 / (b.body.position - a.body.position).length :=
        div_nonneg (div_nonneg hpen2.le (by norm_num)) hd0.le
      have hcb : (0:ℝ) ≤ (b.body.radius + b.body.radius - (b.body.position - a.body.position).length) / 2 / (b.body.position - a.body.position).length :=
        div_nonneg (div_nonneg hpen2.le (by norm_num)) hd0.le
      have hpos1 : (0:ℝ) < 1 + (b.body.radius + b.body.radius - (b.body.position - a.body.position).length) / 2 / (b.body.position - a.body.position).length -
          -((b.body.radius + b.body.radius - (b.body.position - a.body.position).length) / 4 / (b.body.position - a.body.position).length) := by linarith
      have hexpand : (1 + (b.body.radius + b.body.radius - (b.body.position - a.body.position).length) / 2 / (b.body.position - a.body.position).length -
          -((b.body.radius + b.body.radius - (b.body.position - a.body.position).length) / 4 / (b.body.position - a.body.position).length)) * (b.body.position - a.body.position).length =
          (b.body.position - a.body.position).length + (3 / 4) * (b.body.radius + b.body.radius - (b.body.position - a.body.position).length) := by
        field_simp
        ring
      refine ⟨_, _, pair_eval_eq a b hd hover hcase hra, ?_, ?_⟩
      · dsimp only
        rw [Vec2.shift_both a.body.position b.body.position, Vec2.length_smul,
          abs_of_pos hpos1, hexpand]
        linarith [hpen2]
      · dsimp only
        rw [Vec2.shift_both a.body.position b.body.position, Vec2.length_smul,
          abs_of_pos hpos1, hexpand]
        linarith [hpen2, hcase]
    · have hS : (0:ℝ) ≤
          ((a.body.radius + b.body.radius - (b.body.position - a.body.position).length) *
          (a.body.radius / (a.body.radius + b.body.radius)) +
        (a.body.radius + b.body.radius - (b.body.position - a.body.position).length) *
          (b.body.radius / (a.body.radius + b.body.radius)) *
          (a.body.radius / (a.body.radius + b.body.radius))) /
        (b.body.position - a.body.position).length :=
        div_nonneg (add_nonneg (mul_nonneg hpen.le (div_nonneg hra.le hs0.le))
          (mul_nonneg (mul_nonneg hpen.le (div_nonneg hrb.le hs0.le))
            (div_nonneg hra.le hs0.le))) hd0.le
      have hpos1 : (0:ℝ) < 1 +
          ((a.body.radius + b.body.radius - (b.body.position - a.body.position).length) *
          (a.body.radius / (a.body.radius + b.body.radius)) +
        (a.body.radius + b.body.radius - (b.body.position - a.body.position).length) *
          (b.body.radius / (a.body.radius + b.body.radius)) *
          (a.body.radius / (a.body.radius + b.body.radius))) /
        (b.body.position - a.body.position).length := by linarith
      have hSL :
          (((a.body.radius + b.body.radius - (b.body.position - a.body.position).length) *
          (a.body.radius / (a.body.radius + b.body.radius)) +
        (a.body.radius + b.body.radius - (b.body.position - a.body.position).length) *
          (b.body.radius / (a.body.radius + b.body.radius)) *
          (a.body.radius / (a.body.radius + b.body.radius))) /
        (b.body.position - a.body.position).length) * (b.body.position - a.body.position).length =
          (a.body.radius + b.body.radius - (b.body.position - a.body.position).length) * (a.body.radius / (a.body.radius + b.body.radius)) +
            (a.body.radius + b.body.radius - (b.body.position - a.body.position).length) * (b.body.radius / (a.body.radius + b.body.radius)) * (a.body.radius / (a.body.radius + b.body.radius)) := by
        field_simp
        ring
      have hA1 : (a.body.radius + b.body.radius - (b.body.position - a.body.position).length) * (a.body.radius / (a.body.radius + b.body.radius)) +
            (a.body.radius + b.body.radius - (b.body.position - a.body.position).length) * (b.body.radius / (a.body.radius + b.body.radius)) * (a.body.radius / (a.body.radius + b.body.radius)) =
          (a.body.radius + b.body.radius - (b.body.position - a.body.position).length) * ((a.body.radius * (a.body.radius + b.body.radius) + b.body.radius * a.body.radius) / ((a.body.radius + b.body.radius) * (a.body.radius + b.body.radius))) := by
        field_simp
        ring
      have hfrac : (a.body.radius * (a.body.radius + b.body.radius) + b.body.radius * a.body.radius) / ((a.body.radius + b.body.radius) * (a.body.radius + b.body.radius)) < 1 := by
        rw [div_lt_one (mul_pos hs0 hs0)]
        nlinarith [mul_pos hrb hrb]
      have hA : (a.body.radius + b.body.radius - (b.body.position - a.body.position).length) * (a.body.radius / (a.body.radius + b.body.radius)) +
            (a.body.radius + b.body.radius - (b.body.position - a.body.position).length) * (b.body.radius / (a.body.radius + b.body.radius)) * (a.body.radius / (a.body.radius + b.body.radius)) < (a.body.radius + b.body.radius - (b.body.position - a.body.position).length) := by
        rw [hA1]
        have hmul := mul_lt_mul_of_pos_left hfrac hpen
        rw [mul_one] at hmul
        exact hmul
      have hexpand : (1 +
          ((a.body.radius + b.body.radius - (b.body.position - a.body.position).length) *
          (a.body.radius / (a.body.radius + b.body.radius)) +
        (a.body.radius + b.body.radius - (b.body.position - a.body.position).length) *
          (b.body.radius / (a.body.radius + b.body.radius)) *
          (a.body.radius / (a.body.radius + b.body.radius))) /
        (b.body.position - a.body.position).length) * (b.body.position - a.body.position).length =
          (b.body.position - a.body.position).length +
          (((a.body.radius + b.body.radius - (b.body.position - a.body.position).length) *
          (a.body.radius / (a.body.radius + b.body.radius)) +
        (a.body.radius + b.body.radius - (b.body.position - a.body.position).length) *
          (b.body.radius / (a.body.radius + b.body.radius)) *
          (a.body.radius / (a.body.radius + b.body.radius))) /
        (b.body.position - a.body.position).length) * (b.body.position - a.body.position).length := by ring
      refine ⟨_, _, pair_eval_gt a b hd hover hcase hra hrb, ?_, ?_⟩
      · dsimp only
        rw [Vec2.shift_b a.body.position b.body.position, Vec2.length_smul,
          abs_of_pos hpos1, hexpand, hSL]
        nlinarith [hA, hpen]
      · dsimp only
        rw [Vec2.shift_b a.body.position b.body.position, Vec2.length_smul,
          abs_of_pos hpos1, hexpand, hSL]
        linarith [hA]

/-- Smaller body of the unequal-radius pair used by the C3 witness. -/
noncomputable def eW3a : Entity ℝ := mkEntity ⟨0, 0⟩ ⟨0, 0⟩ 1

/-- Larger body of the unequal-radius pair used by the C3 witness. -/
noncomputable def eW3b : Entity ℝ := mkEntity ⟨2, 0⟩ ⟨0, 0⟩ 3

/-- Witness for C3 at a concrete unequal-radius overlapping pair. -/
theorem claim3_witness :
    (eW3b.body.position - eW3a.body.position).length ≠ 0 ∧
    (eW3b.body.position - eW3a.body.position).length <
      eW3a.body.radius + eW3b.body.radius ∧
    (0:ℝ) < eW3a.body.radius ∧ (0:ℝ) < eW3b.body.radius ∧
    (∃ a2 b2, sys_resolve_collisions [eW3a, eW3b] [(0, [1]), (1, [0])] = [a2, b2] ∧
      (eW3b.body.position - eW3a.body.position).length ≤
        (b2.body.position - a2.body.position).length ∧
      (b2.body.position - a2.body.position).length <
        eW3a.body.radius + eW3b.body.radius) := by
  have hw : eW3b.body.position - eW3a.body.position = (⟨2, 0⟩ : Vec2 ℝ) := by
    apply Vec2.ext2 <;> simp [eW3a, eW3b, mkEntity]
  have hlen : (eW3b.body.position - eW3a.body.position).length = 2 := by
    rw [hw, Vec2.length_axis]
    norm_num
  have hra : (0:ℝ) < eW3a.body.radius := by norm_num [eW3a, mkEntity]
  have hrb : (0:ℝ) < eW3b.body.radius := by norm_num [eW3b, mkEntity]
  have hd : (eW3b.body.position - eW3a.body.position).length ≠ 0 := by
    rw [hlen]
    norm_num
  have hover : (eW3b.body.position - eW3a.body.position).length <
      eW3a.body.radius + eW3b.body.radius := by
    rw [hlen]
    norm_num [eW3a, eW3b, mkEntity]
  exact ⟨hd, hover, hra, hrb,
    (claim3_size_split_double_visit eW3a eW3b hd hover hra hrb).2⟩

end CirclePhysics
